import Mathlib

/-!
Verification of the `koishi-plugin-best-cave` maintenance scripts
(`src/Tool/FixIndexAndAddTime.py`, `src/Tool/FixExtension.py`,
`src/Tool/convert.py`) against their design specification.

The three Python scripts are shallowly embedded below.  A flat media
directory is modelled as a list of filenames (for the extension fixer,
filenames paired with the content kind a signature sniffer would detect;
renaming a file does not change its content, hence not its kind).
OS-level rename failures (permission errors, …) are environmental, so the
runs take a `fail : String → String → Bool` oracle telling which
`os.rename(old, new)` calls raise.  JSON documents are lists of records
(`Cave`), each holding a list of `Element`s; only the `type` and `file`
keys of an element are ever read or written by the scripts, so only those
are modelled (a missing key is `none`).
-/

namespace BestCave

/-- One entry of an `elements` list.  `type` models `element.get('type')`
and `file` models the `'file'` key (`none` when the key is absent). -/
structure Element where
  type : Option String := none
  file : Option String := none
deriving DecidableEq, Repr

/-- One record ("cave") of the export document, as read by
`FixIndexAndAddTime.py`: `cave['id']` and `cave['time']` raise `KeyError`
when absent (hence `Option`), `channelId`/`userId` are read with
`.get(…, 'unknown')`, and `elements` with `.get('elements', [])`. -/
structure Cave where
  id : Option String := none
  channelId : Option String := none
  userId : Option String := none
  time : Option String := none
  elements : List Element := []
deriving DecidableEq, Repr

/-! ### `os.path.splitext`, for filenames without a directory separator -/

/-- Index (0-based) of the last occurrence of `c` in `l`, if any. -/
def lastIdxOf (c : Char) (l : List Char) : Option Nat :=
  match l with
  | [] => none
  | a :: rest =>
    match lastIdxOf c rest with
    | some i => some (i + 1)
    | none => if a = c then some 0 else none

/-- Model of Python's `os.path.splitext` for paths containing no
directory separator: split at the last dot, except that a run of leading
dots never starts an extension (`splitext('.bashrc') = ('.bashrc', '')`). -/
def splitext (p : String) : String × String :=
  match lastIdxOf '.' p.data with
  | none => (p, "")
  | some d =>
    if (p.data.take d).all (fun c => c = '.') then (p, "")
    else (⟨p.data.take d⟩, ⟨p.data.drop d⟩)

/-! ### ISO-8601 → epoch milliseconds (`convert_iso_to_ms_timestamp`) -/

/-- Decimal digits to a number; `none` unless the list is nonempty and
all digits. -/
def digitsToNat (l : List Char) : Option Nat :=
  if l ≠ [] ∧ l.all Char.isDigit then
    some (l.foldl (fun acc c => acc * 10 + (c.toNat - 48)) 0)
  else none

/-- `True` for leap years of the proleptic Gregorian calendar. -/
def isLeap (y : Nat) : Bool :=
  (y % 4 = 0 && y % 100 ≠ 0) || y % 400 = 0

/-- Days in the months strictly before month `m` (1-based). -/
def daysBeforeMonth (leap : Bool) (m : Nat) : Nat :=
  let lens := [31, if leap then 29 else 28, 31, 30, 31, 30, 31, 31, 30, 31, 30, 31]
  (lens.take (m - 1)).sum

/-- Leap years in `[1, z]`. -/
def leapCount (z : Nat) : Nat := z / 4 + z / 400 - z / 100

/-- Days from 1970-01-01 to `y-m-d` (valid Gregorian dates, `y ≥ 1970`). -/
def daysSinceEpoch (y m d : Nat) : Nat :=
  365 * (y - 1970) + (leapCount (y - 1) - leapCount 1969)
    + daysBeforeMonth (isLeap y) m + (d - 1)

/-- Parses `"YYYY-MM-DDTHH:MM:SS"` into its six fields, validating the
separators and field ranges, for dates from 1970 on.  This is the subset
of `datetime.fromisoformat` the export documents use; other layouts
(fractional seconds, non-UTC offsets, pre-1970 dates) are outside the
modelled domain and yield `none`. -/
def parseIsoCore (cs : List Char) : Option (Nat × Nat × Nat × Nat × Nat × Nat) :=
  if cs.length = 19 ∧ (cs.drop 4).take 1 = ['-'] ∧ (cs.drop 7).take 1 = ['-']
      ∧ (cs.drop 10).take 1 = ['T'] ∧ (cs.drop 13).take 1 = [':']
      ∧ (cs.drop 16).take 1 = [':'] then
    match digitsToNat (cs.take 4), digitsToNat ((cs.drop 5).take 2),
        digitsToNat ((cs.drop 8).take 2), digitsToNat ((cs.drop 11).take 2),
        digitsToNat ((cs.drop 14).take 2), digitsToNat ((cs.drop 17).take 2) with
    | some y, some mo, some d, some h, some mi, some se =>
      if 1970 ≤ y ∧ 1 ≤ mo ∧ mo ≤ 12 ∧ 1 ≤ d ∧ d ≤ 31 ∧ h ≤ 23 ∧ mi ≤ 59 ∧ se ≤ 59 then
        some (y, mo, d, h, mi, se)
      else none
    | _, _, _, _, _, _ => none
  else none

/-- Model of `convert_iso_to_ms_timestamp` (FixIndexAndAddTime.py:16-32):
a trailing `'Z'` is replaced by `'+00:00'`, the string is parsed as an
ISO-8601 timestamp, a naive result is treated as UTC, and the epoch
second count is returned in milliseconds.  `none` models the `ValueError`
`datetime.fromisoformat` raises on input outside the modelled domain. -/
def convert_iso_to_ms_timestamp (iso : String) : Option Int :=
  let cs := iso.data
  let s := if cs.getLast? = some 'Z' then cs.dropLast ++ "+00:00".data else cs
  let core :=
    if 6 ≤ s.length ∧ s.drop (s.length - 6) = "+00:00".data then
      s.take (s.length - 6)
    else s
  match parseIsoCore core with
  | some (y, mo, d, h, mi, se) =>
    some (((daysSinceEpoch y mo d * 86400 + h * 3600 + mi * 60 + se : Nat) : Int) * 1000)
  | none => none

/-! ### The full-reindex transform (`FixIndexAndAddTime.py`) -/

/-- The element types treated as file-bearing media
(FixIndexAndAddTime.py:65). -/
def mediaTypes : List String := ["image", "video", "audio", "file", "gif"]

/-- `'file' in element and element.get('type') in [...]`
(FixIndexAndAddTime.py:65). -/
def isMediaFileElem (e : Element) : Bool :=
  e.file.isSome && (match e.type with
    | some t => mediaTypes.contains t
    | none => false)

/-- The f-string of FixIndexAndAddTime.py:72:
`f"{cave_id}-{media_index}_{channel_id}-{user_id}_{timestamp_ms}{extension}"`.
Numeric ids are represented by the decimal string Python's formatting
would produce for them. -/
def newFilenameFix (cid : String) (idx : Nat) (ch uid : String) (ts : Int)
    (ext : String) : String :=
  cid ++ "-" ++ toString idx ++ "_" ++ ch ++ "-" ++ uid ++ "_" ++ toString ts ++ ext

/-- `os.rename old new` on a flat directory modelled as a name list: the
file called `old` is now called `new`; a pre-existing distinct file called
`new` is overwritten (POSIX semantics of a successful rename). -/
def renameName (fs : List String) (old new : String) : List String :=
  fs.foldr (fun f acc =>
    if f = old then new :: acc else if f = new then acc else f :: acc) []

/-- Result of the element loop of `rename_files_and_update_json`
(FixIndexAndAddTime.py:63-89) on one cave. `ok = false` records that an
`os.rename` raised, abandoning the rest of the loop (the exception is
only caught per cave, at line 96): `els` then keeps the remaining
elements untouched.  `names` logs every filename the loop built at
line 72, in order. -/
structure IdxElemsRes where
  els : List Element
  fs : List String
  renamed : Nat
  skipped : Nat
  updated : Bool
  ok : Bool
  names : List String
deriving Repr

/-- The element loop of FixIndexAndAddTime.py:63-89.  `idx` is the value
of `media_index` so far; each media element with a file bumps it, gets
the canonical name computed, and — if its current file exists — is
renamed on disk and updated in the document. -/
def processIdxElems (cid ch uid : String) (ts : Int)
    (fail : String → String → Bool) :
    Nat → List String → List Element → IdxElemsRes
  | _, fs, [] => ⟨[], fs, 0, 0, false, true, []⟩
  | idx, fs, e :: rest =>
    if isMediaFileElem e then
      match e.file with
      | some old =>
        let nn := newFilenameFix cid (idx + 1) ch uid ts (splitext old).2
        if old ∈ fs then
          if fail old nn then
            ⟨e :: rest, fs, 0, 0, false, false, [nn]⟩
          else
            let r := processIdxElems cid ch uid ts fail (idx + 1) (renameName fs old nn) rest
            ⟨{ e with file := some nn } :: r.els, r.fs, r.renamed + 1, r.skipped,
              true, r.ok, nn :: r.names⟩
        else
          let r := processIdxElems cid ch uid ts fail (idx + 1) fs rest
          ⟨e :: r.els, r.fs, r.renamed, r.skipped + 1, r.updated, r.ok, nn :: r.names⟩
      | none =>
        let r := processIdxElems cid ch uid ts fail idx fs rest
        ⟨e :: r.els, r.fs, r.renamed, r.skipped, r.updated, r.ok, r.names⟩
    else
      let r := processIdxElems cid ch uid ts fail idx fs rest
      ⟨e :: r.els, r.fs, r.renamed, r.skipped, r.updated, r.ok, r.names⟩

/-- Result of processing one cave (FixIndexAndAddTime.py:49-97). -/
structure IdxCaveRes where
  cave : Cave
  fs : List String
  renamed : Nat
  skipped : Nat
  updatedEntries : Nat
  names : List String
deriving Repr

/-- One iteration of the cave loop of FixIndexAndAddTime.py:49-97.  A
`KeyError` on `id`/`time` or a `ValueError` from the timestamp conversion
is caught at lines 94-97, skipping the entry before any element was
touched.  A rename failure mid-loop is likewise caught per cave: earlier
element mutations and renames stand, `updated_json_entries` is not
incremented. -/
def processIdxCave (fail : String → String → Bool) (fs : List String)
    (c : Cave) : IdxCaveRes :=
  match c.id, c.time with
  | some cid, some t =>
    match convert_iso_to_ms_timestamp t with
    | some ts =>
      let ch := c.channelId.getD "unknown"
      let uid := c.userId.getD "unknown"
      let r := processIdxElems cid ch uid ts fail 0 fs c.elements
      ⟨{ c with elements := r.els }, r.fs, r.renamed, r.skipped,
        if r.ok && r.updated then 1 else 0, r.names⟩
    | none => ⟨c, fs, 0, 0, 0, []⟩
  | _, _ => ⟨c, fs, 0, 0, 0, []⟩

/-- Result of `rename_files_and_update_json` over the whole document. -/
structure IdxRunRes where
  data : List Cave
  fs : List String
  renamed : Nat
  skipped : Nat
  updatedEntries : Nat
deriving Repr

/-- The cave loop of `rename_files_and_update_json`
(FixIndexAndAddTime.py:49-104), after the `isdir` guard. -/
def runIdxCaves (fail : String → String → Bool) (fs : List String) :
    List Cave → IdxRunRes
  | [] => ⟨[], fs, 0, 0, 0⟩
  | c :: rest =>
    let r := processIdxCave fail fs c
    let rr := runIdxCaves fail r.fs rest
    ⟨r.cave :: rr.data, rr.fs, r.renamed + rr.renamed, r.skipped + rr.skipped,
      r.updatedEntries + rr.updatedEntries⟩

/-- `rename_files_and_update_json(data, base_dir)`
(FixIndexAndAddTime.py:35-104): `none` models the `return None` taken
when the media directory does not exist (line 39-41), before anything is
touched. -/
def rename_files_and_update_json (dirExists : Bool)
    (fail : String → String → Bool) (fs : List String) (data : List Cave) :
    Option IdxRunRes :=
  if dirExists then some (runIdxCaves fail fs data) else none

/-- Result of the `__main__` block of FixIndexAndAddTime.py.  `output` is
the document written to `output_json_path` (`none` when nothing was
written); `fs` is the media directory afterwards. -/
structure IdxMainRes where
  output : Option (List Cave)
  fs : List String
  renamed : Nat
  skipped : Nat
  updatedEntries : Nat
deriving Repr

/-- The `__main__` block of FixIndexAndAddTime.py:107-126.  `doc`
is the parsed input document (`none` = invalid JSON, whose uncaught
`json.JSONDecodeError` stops the run before any mutation).  The output
file is written iff `updated_data` is truthy, i.e. iff the run function
did not return `None` and the (length-preserved) document list is
nonempty — independent of how many attachments were actually renamed. -/
def fixIndexMain (inputExists dirExists : Bool) (doc : Option (List Cave))
    (fail : String → String → Bool) (fs : List String) : IdxMainRes :=
  if inputExists then
    if dirExists then
      match doc with
      | some data =>
        match rename_files_and_update_json dirExists fail fs data with
        | some r =>
          ⟨if r.data.isEmpty then none else some r.data, r.fs, r.renamed,
            r.skipped, r.updatedEntries⟩
        | none => ⟨none, fs, 0, 0, 0⟩
      | none => ⟨none, fs, 0, 0, 0⟩
    else ⟨none, fs, 0, 0, 0⟩
  else ⟨none, fs, 0, 0, 0⟩

/-! ### The extension-fix transform (`FixExtension.py`) -/

/-- ASCII lower-casing of one character, as Python's `str.lower` does on
the ASCII extension strings involved here. -/
def lowerChar (c : Char) : Char :=
  if 65 ≤ c.toNat ∧ c.toNat ≤ 90 then Char.ofNat (c.toNat + 32) else c

/-- `s.lower()` on ASCII strings. -/
def lowerStr (s : String) : String := ⟨s.data.map lowerChar⟩

/-- One physical file of the media directory, carrying the content kind
a magic-byte sniffer (`filetype.guess`) detects for it — `none` when the
content is of no recognizable type.  Renaming a file moves its content
with it, so its `kind` is unaffected. -/
structure MFile where
  name : String
  kind : Option String
deriving DecidableEq, Repr

/-- File lookup by name (`os.path.exists` / `filetype.guess` target). -/
def findFile (fs : List MFile) (n : String) : Option MFile :=
  fs.find? (fun f => f.name == n)

/-- `os.rename old new` on the extension-fixer's directory model. -/
def renameExt (fs : List MFile) (old new : String) : List MFile :=
  fs.foldr (fun f acc =>
    if f.name = old then ⟨new, f.kind⟩ :: acc
    else if f.name = new then acc
    else f :: acc) []

/-- Result of the element loop of `correct_files_and_update_json`
(FixExtension.py:47-94). -/
structure ExtElemsRes where
  els : List Element
  fs : List MFile
  corrected : Nat
  skipped : Nat
deriving Repr

/-- The element loop of FixExtension.py:47-94: for each element with a
`'file'` key, skip it when the file is absent or its type undetectable;
otherwise compare its current extension with the detected one,
case-insensitively, and rename file and document entry when they differ.
A raising `os.rename` is caught per element (lines 92-94): the element
stays untouched, the loop goes on with the next element. -/
def processExtElems (fail : String → String → Bool) (fs : List MFile) :
    List Element → ExtElemsRes
  | [] => ⟨[], fs, 0, 0⟩
  | e :: rest =>
    match e.file with
    | none =>
      let r := processExtElems fail fs rest
      ⟨e :: r.els, r.fs, r.corrected, r.skipped⟩
    | some orig =>
      match findFile fs orig with
      | none =>
        let r := processExtElems fail fs rest
        ⟨e :: r.els, r.fs, r.corrected, r.skipped + 1⟩
      | some f =>
        match f.kind with
        | none =>
          let r := processExtElems fail fs rest
          ⟨e :: r.els, r.fs, r.corrected, r.skipped + 1⟩
        | some kind =>
          let correctExt := "." ++ kind
          if lowerStr (splitext orig).2 ≠ lowerStr correctExt then
            let nn := (splitext orig).1 ++ correctExt
            if fail orig nn then
              let r := processExtElems fail fs rest
              ⟨e :: r.els, r.fs, r.corrected, r.skipped + 1⟩
            else
              let r := processExtElems fail (renameExt fs orig nn) rest
              ⟨{ e with file := some nn } :: r.els, r.fs, r.corrected + 1, r.skipped⟩
          else
            let r := processExtElems fail fs rest
            ⟨e :: r.els, r.fs, r.corrected, r.skipped⟩

/-- Result of the cave loop of FixExtension.py:42-94. -/
structure ExtCavesRes where
  data : List Cave
  fs : List MFile
  corrected : Nat
  skipped : Nat
deriving Repr

/-- The cave loop of FixExtension.py:42-94 (`if not elements: continue`
coincides with processing an empty element list). -/
def runExtCaves (fail : String → String → Bool) (fs : List MFile) :
    List Cave → ExtCavesRes
  | [] => ⟨[], fs, 0, 0⟩
  | c :: rest =>
    let r := processExtElems fail fs c.elements
    let rr := runExtCaves fail r.fs rest
    ⟨{ c with elements := r.els } :: rr.data, rr.fs,
      r.corrected + rr.corrected, r.skipped + rr.skipped⟩

/-- Result of `correct_files_and_update_json`.  `output` is the document
written back to the JSON path (`none` when the write was skipped). -/
structure ExtRunRes where
  output : Option (List Cave)
  fs : List MFile
  corrected : Nat
  skipped : Nat
deriving Repr

/-- `correct_files_and_update_json(json_file_path, files_base_dir)`
(FixExtension.py:14-112).  The two path guards (lines 19-24) and the
`json.JSONDecodeError` handler (lines 30-34, `doc = none`) return before
anything is touched; otherwise the caves are processed and the document
is written back iff `total_corrected > 0` (line 97). -/
def correct_files_and_update_json (jsonExists dirExists : Bool)
    (doc : Option (List Cave)) (fail : String → String → Bool)
    (fs : List MFile) : ExtRunRes :=
  if jsonExists then
    if dirExists then
      match doc with
      | some data =>
        let r := runExtCaves fail fs data
        ⟨if r.corrected > 0 then some r.data else none, r.fs, r.corrected, r.skipped⟩
      | none => ⟨none, fs, 0, 0⟩
    else ⟨none, fs, 0, 0⟩
  else ⟨none, fs, 0, 0⟩

/-! ### The schema-conversion transform (`convert.py`) -/

/-- A JSON scalar as `item.get` returns it: `pnone` stands both for an
absent key and for an explicit `null` (Python's `dict.get` conflates
them). -/
inductive PyVal where
  | pnone
  | pstr (s : String)
  | pint (n : Int)
deriving DecidableEq, Repr

/-- Python truthiness, as used by `if not all([cave_id, user_id])`
(convert.py:57). -/
def PyVal.truthy : PyVal → Bool
  | .pnone => false
  | .pstr s => s ≠ ""
  | .pint n => n ≠ 0

/-- `str(v)`, as f-string interpolation renders the value. -/
def PyVal.fmt : PyVal → String
  | .pnone => "None"
  | .pstr s => s
  | .pint n => toString n

/-- One record of the legacy `cave.json` read by convert.py:52-55.
`contributor_name` defaults to `'Unknown'` via `.get`. -/
structure OldItem where
  cave_id : PyVal := .pnone
  contributor_number : PyVal := .pnone
  contributor_name : String := "Unknown"
  elements : List Element := []
deriving DecidableEq, Repr

/-- One record of the produced `cave_import.json` (convert.py:115-122).
`time` is the wall-clock timestamp taken at conversion time, supplied to
the model as a parameter. -/
structure NewItem where
  elements : List Element
  channelId : String
  userId : PyVal
  userName : String
  status : String
  time : String
deriving DecidableEq, Repr

/-- `os.path.basename`, for the forward-slash separator. -/
def basename (p : String) : String :=
  match lastIdxOf '/' p.data with
  | none => p
  | some i => ⟨p.data.drop (i + 1)⟩

/-- The f-string of convert.py:91:
`f"{cave_id}_{media_index_counter}_{channel_id}_{user_id}{extension}"`. -/
def newFilenameConv (cid : PyVal) (idx : Nat) (ch : String) (uid : PyVal)
    (ext : String) : String :=
  cid.fmt ++ "_" ++ toString idx ++ "_" ++ ch ++ "_" ++ uid.fmt ++ ext

/-- The element loop of convert.py:79-112 (`resources` directory
modelled as a name list, like the full-reindex one). For `image`/`video`
elements with a truthy `file` value, the file is renamed when present —
a raising rename is caught and only logged (lines 105-106) — and the
document entry is then set to the new name *unconditionally* (line 109).
Returns the rewritten elements and directory. -/
def convertElems (cid uid : PyVal) (ch : String)
    (fail : String → String → Bool) :
    Nat → List String → List Element → List Element × List String
  | _, fs, [] => ([], fs)
  | idx, fs, e :: rest =>
    let isMedia : Bool := match e.type with
      | some t => t == "image" || t == "video"
      | none => false
    if isMedia then
      match e.file with
      | some orig =>
        if orig = "" then
          let (r, fs') := convertElems cid uid ch fail idx fs rest
          (e :: r, fs')
        else
          let nn := newFilenameConv cid idx ch uid (splitext orig).2
          let old := basename orig
          let fs' := if old ∈ fs then (if fail old nn then fs else renameName fs old nn)
            else fs
          let (r, fs'') := convertElems cid uid ch fail (idx + 1) fs' rest
          ({ e with file := some nn } :: r, fs'')
      | none =>
        let (r, fs') := convertElems cid uid ch fail idx fs rest
        (e :: r, fs')
    else
      let (r, fs') := convertElems cid uid ch fail idx fs rest
      (e :: r, fs')

/-- Result of the item loop of `convert_and_rename_files`. -/
structure ConvRes where
  output : List NewItem
  map : List (PyVal × String)
  fs : List String
deriving Repr

/-- The item loop of convert.py:52-123.  `resolve` models the
interactive prompt for a channel id of an unseen user (its retry loop
guarantees a non-empty answer; interruption is out of the modelled
scope), `userMap` the mapping loaded from `channel_mapping.json`, and
`now` the conversion wall-clock time.  A record whose `cave_id` or
`contributor_number` is falsy is skipped (lines 57-59). -/
def convertItems (resolve : PyVal → String) (now : String)
    (fail : String → String → Bool) :
    List (PyVal × String) → List String → List OldItem → ConvRes
  | map, fs, [] => ⟨[], map, fs⟩
  | map, fs, item :: rest =>
    if item.cave_id.truthy && item.contributor_number.truthy then
      let uid := item.contributor_number
      let map' := match map.lookup uid with
        | some _ => map
        | none => map ++ [(uid, resolve uid)]
      let ch := (map'.lookup uid).getD ""
      let (els, fs') := convertElems item.cave_id uid ch fail 1 fs item.elements
      let r := convertItems resolve now fail map' fs' rest
      ⟨⟨els, ch, uid, item.contributor_name, "active", now⟩ :: r.output, r.map, r.fs⟩
    else
      convertItems resolve now fail map fs rest

/-! ### Spec-side definitions and state predicates -/

/-- The canonical filename scheme as the specification words it (§3):
`{recordId}-{attachmentIndex}_{channelId}-{userId}_{timestampMs}{extension}`,
for the attachment holding 1-based per-record index `j`; the extension is
the one of the attachment's current filename. -/
def specCanonicalName (cid ch uid : String) (ts : Int) (j : Nat)
    (e : Element) : String :=
  cid ++ "-" ++ toString j ++ "_" ++ ch ++ "-" ++ uid ++ "_" ++ toString ts
    ++ (splitext (e.file.getD "")).2

/-- Number of file-bearing media attachments of a record's elements. -/
def countMediaElems (els : List Element) : Nat :=
  els.countP (fun e => isMediaFileElem e)

/-- `countMediaElems` summed over a document. -/
def countMediaDoc (data : List Cave) : Nat :=
  (data.map (fun c => countMediaElems c.elements)).sum

/-- An element the extension fixer would leave untouched on the given
directory: no file key, file absent, type undetectable, or extension
already matching the detected one up to letter case. -/
def extNoFixNeeded (fs : List MFile) (e : Element) : Bool :=
  match e.file with
  | none => true
  | some orig =>
    match findFile fs orig with
    | none => true
    | some f =>
      match f.kind with
      | none => true
      | some kind => lowerStr (splitext orig).2 == lowerStr ("." ++ kind)

/-- Elements whose file-bearing media entries already carry the
canonical name for their position and whose files are all present — the
state the element loop of `FixIndexAndAddTime.py` leaves behind after a
fully successful pass.  `idx` is the `media_index` value on entry. -/
def idxSecondPassState (cid ch uid : String) (ts : Int) (fs : List String) :
    Nat → List Element → Bool
  | _, [] => true
  | idx, e :: rest =>
    if isMediaFileElem e then
      match e.file with
      | some old =>
        old == newFilenameFix cid (idx + 1) ch uid ts (splitext old).2
          && old ∈ fs && idxSecondPassState cid ch uid ts fs (idx + 1) rest
      | none => false
    else idxSecondPassState cid ch uid ts fs idx rest

/-- A record in the state a fully successful full-reindex pass leaves
behind: its metadata is readable and all its media files already carry
their canonical names. -/
def idxCaveSecondPass (fs : List String) (c : Cave) : Bool :=
  match c.id, c.time with
  | some cid, some t =>
    match convert_iso_to_ms_timestamp t with
    | some ts =>
      idxSecondPassState cid (c.channelId.getD "unknown")
        (c.userId.getD "unknown") ts fs 0 c.elements
    | none => false
  | _, _ => false

/-! ### Helper lemmas -/

/-- With no failing rename, the element loop of the full reindexer
computes exactly the spec's canonical name, with a 1-based counter over
the file-bearing media elements, for every such element — whether or not
the file is present on disk (line 72 runs before the existence check). -/
theorem processIdxElems_names_nofail (cid ch uid : String) (ts : Int)
    (els : List Element) : ∀ (idx : Nat) (fs : List String),
    (processIdxElems cid ch uid ts (fun _ _ => false) idx fs els).names
      = ((els.filter (fun e => isMediaFileElem e)).enumFrom (idx + 1)).map
          (fun p => specCanonicalName cid ch uid ts p.1 p.2) := by
  induction els with
  | nil => intro idx fs; simp [processIdxElems]
  | cons e rest ih =>
    intro idx fs
    by_cases h : isMediaFileElem e
    · rcases hf : e.file with _ | old
      · simp [isMediaFileElem, hf] at h
      · by_cases hm : old ∈ fs
        · simp [processIdxElems, h, hf, hm, ih, List.enumFrom, specCanonicalName,
            newFilenameFix]
        · simp [processIdxElems, h, hf, hm, ih, List.enumFrom, specCanonicalName,
            newFilenameFix]
    · simp [processIdxElems, h, ih]

/-- A record whose elements bear no media file renames nothing and stays
untouched. -/
theorem processIdxElems_no_media (cid ch uid : String) (ts : Int)
    (fail : String → String → Bool) (els : List Element) :
    ∀ (idx : Nat) (fs : List String),
    els.all (fun e => !isMediaFileElem e) = true →
    processIdxElems cid ch uid ts fail idx fs els = ⟨els, fs, 0, 0, false, true, []⟩ := by
  induction els with
  | nil => intro idx fs _; simp [processIdxElems]
  | cons e rest ih =>
    intro idx fs hall
    simp only [List.all_cons, Bool.and_eq_true, Bool.not_eq_true'] at hall
    simp [processIdxElems, hall.1, ih idx fs (by simp [hall.2])]

/-- Renaming a file to its own name leaves the directory model as it
was. -/
theorem renameName_self (fs : List String) (old : String) :
    renameName fs old old = fs := by
  induction fs with
  | nil => simp [renameName]
  | cons f rest ih =>
    by_cases h : f = old <;> simp_all [renameName, List.foldr]

/-- Rewriting the `file` field with its current value is the identity. -/
theorem element_set_file_self (e : Element) (old : String)
    (h : e.file = some old) : { e with file := some old } = e := by
  cases e; cases h; rfl

/-- On a record already in the fully-reindexed state, a further pass of
the element loop changes nothing — but still performs and counts one
rename per media attachment. -/
theorem processIdxElems_second_pass (cid ch uid : String) (ts : Int)
    (els : List Element) : ∀ (idx : Nat) (fs : List String),
    idxSecondPassState cid ch uid ts fs idx els = true →
    (processIdxElems cid ch uid ts (fun _ _ => false) idx fs els).els = els
    ∧ (processIdxElems cid ch uid ts (fun _ _ => false) idx fs els).fs = fs
    ∧ (processIdxElems cid ch uid ts (fun _ _ => false) idx fs els).renamed
        = countMediaElems els := by
  induction els with
  | nil => intro idx fs _; simp [processIdxElems, countMediaElems]
  | cons e rest ih =>
    intro idx fs hst
    by_cases h : isMediaFileElem e
    · rcases hf : e.file with _ | old
      · simp [isMediaFileElem, hf] at h
      · simp only [idxSecondPassState, h, if_true, hf, Bool.and_eq_true,
          beq_iff_eq, decide_eq_true_eq] at hst
        obtain ⟨⟨hold, hmem⟩, hrest⟩ := hst
        have ih' := ih (idx + 1) fs hrest
        refine ⟨?_, ?_, ?_⟩
        · simp [processIdxElems, h, hf, hmem, ← hold, renameName_self, ih'.1,
            element_set_file_self e old hf]
        · simp [processIdxElems, h, hf, hmem, ← hold, renameName_self, ih'.2.1]
        · simp [processIdxElems, h, hf, hmem, ← hold, renameName_self, ih'.2.2,
            countMediaElems, List.countP_cons]
    · simp only [idxSecondPassState, h, if_false] at hst
      have ih' := ih idx fs hst
      refine ⟨?_, ?_, ?_⟩
      · simp [processIdxElems, h, ih'.1]
      · simp [processIdxElems, h, ih'.2.1]
      · simp [processIdxElems, h, ih'.2.2, countMediaElems, List.countP_cons]

/-- Cave-level version of `processIdxElems_second_pass`. -/
theorem processIdxCave_second_pass (fs : List String) (c : Cave)
    (hst : idxCaveSecondPass fs c = true) :
    (processIdxCave (fun _ _ => false) fs c).cave = c
    ∧ (processIdxCave (fun _ _ => false) fs c).fs = fs
    ∧ (processIdxCave (fun _ _ => false) fs c).renamed
        = countMediaElems c.elements := by
  rcases hid : c.id with _ | cid
  · simp [idxCaveSecondPass, hid] at hst
  rcases htm : c.time with _ | t
  · simp [idxCaveSecondPass, hid, htm] at hst
  rcases hts : convert_iso_to_ms_timestamp t with _ | ts
  · simp [idxCaveSecondPass, hid, htm, hts] at hst
  simp only [idxCaveSecondPass, hid, htm, hts] at hst
  have h := processIdxElems_second_pass cid (c.channelId.getD "unknown")
    (c.userId.getD "unknown") ts c.elements 0 fs hst
  refine ⟨?_, ?_, ?_⟩
  · have hc : (processIdxCave (fun _ _ => false) fs c).cave
        = { c with elements := (processIdxElems cid (c.channelId.getD "unknown")
            (c.userId.getD "unknown") ts (fun _ _ => false) 0 fs c.elements).els } := by
      simp [processIdxCave, hid, htm, hts]
    rw [hc, h.1]
  · simp [processIdxCave, hid, htm, hts, h.2.1]
  · simp [processIdxCave, hid, htm, hts, h.2.2]

/-- Document-level version of `processIdxCave_second_pass`: the run
changes neither the document nor the filesystem, yet reports each media
attachment renamed once more. -/
theorem runIdxCaves_second_pass (data : List Cave) : ∀ (fs : List String),
    data.all (fun c => idxCaveSecondPass fs c) = true →
    (runIdxCaves (fun _ _ => false) fs data).data = data
    ∧ (runIdxCaves (fun _ _ => false) fs data).fs = fs
    ∧ (runIdxCaves (fun _ _ => false) fs data).renamed = countMediaDoc data := by
  induction data with
  | nil => intro fs _; simp [runIdxCaves, countMediaDoc]
  | cons c rest ih =>
    intro fs hall
    simp only [List.all_cons, Bool.and_eq_true] at hall
    have hc := processIdxCave_second_pass fs c hall.1
    have ih' := ih fs hall.2
    refine ⟨?_, ?_, ?_⟩
    · simp [runIdxCaves, hc.1, hc.2.1, ih'.1]
    · simp [runIdxCaves, hc.2.1, ih'.2.1]
    · simp [runIdxCaves, hc.2.1, hc.2.2, ih'.2.2, countMediaDoc]

/-- The extension fixer leaves any element satisfying `extNoFixNeeded`
untouched, under any failure oracle. -/
theorem processExtElems_no_fix (fail : String → String → Bool)
    (els : List Element) : ∀ (fs : List MFile),
    els.all (fun e => extNoFixNeeded fs e) = true →
    (processExtElems fail fs els).els = els
    ∧ (processExtElems fail fs els).fs = fs
    ∧ (processExtElems fail fs els).corrected = 0 := by
  induction els with
  | nil => intro fs _; simp [processExtElems]
  | cons e rest ih =>
    intro fs hall
    simp only [List.all_cons, Bool.and_eq_true] at hall
    have ih' := ih fs hall.2
    have he := hall.1
    rcases hf : e.file with _ | orig
    · simp [processExtElems, hf, ih'.1, ih'.2.1, ih'.2.2]
    · rcases hfind : findFile fs orig with _ | f
      · simp [processExtElems, hf, hfind, ih'.1, ih'.2.1, ih'.2.2]
      · rcases hk : f.kind with _ | kind
        · simp [processExtElems, hf, hfind, hk, ih'.1, ih'.2.1, ih'.2.2]
        · simp only [extNoFixNeeded, hf, hfind, hk, beq_iff_eq] at he
          simp [processExtElems, hf, hfind, hk, he, ih'.1, ih'.2.1, ih'.2.2]

/-- Cave-loop version of `processExtElems_no_fix`. -/
theorem runExtCaves_no_fix (fail : String → String → Bool)
    (data : List Cave) : ∀ (fs : List MFile),
    data.all (fun c => c.elements.all (fun e => extNoFixNeeded fs e)) = true →
    (runExtCaves fail fs data).data = data
    ∧ (runExtCaves fail fs data).fs = fs
    ∧ (runExtCaves fail fs data).corrected = 0 := by
  induction data with
  | nil => intro fs _; simp [runExtCaves]
  | cons c rest ih =>
    intro fs hall
    simp only [List.all_cons, Bool.and_eq_true] at hall
    have hc := processExtElems_no_fix fail c.elements fs hall.1
    have ih' := ih fs hall.2
    refine ⟨?_, ?_, ?_⟩
    · simp [runExtCaves, hc.1, hc.2.1, ih'.1]
    · simp [runExtCaves, hc.2.1, ih'.2.1]
    · simp [runExtCaves, hc.2.1, hc.2.2, ih'.2.2]

/-- The full-reindex run never drops or adds records. -/
theorem runIdxCaves_isEmpty (fail : String → String → Bool)
    (fs : List String) (data : List Cave) :
    (runIdxCaves fail fs data).data.isEmpty = data.isEmpty := by
  cases data <;> simp [runIdxCaves]

/-! ### Claim theorems -/

/-- **C4**: in full-reindex mode the filename computed for the j-th
file-bearing attachment of a record (j a 1-based per-record counter) is
exactly `{recordId}-{attachmentIndex}_{channelId}-{userId}_{timestampMs}{extension}`;
in particular for recordId 42, attachment index 1, channelId 7, userId
99, timestampMs 1690000000000 and extension `.png` it is the string
`42-1_7-99_1690000000000.png`. -/
theorem c4_canonical_filename_format (cid ch uid : String) (ts : Int)
    (fs : List String) (els : List Element) :
    (processIdxElems cid ch uid ts (fun _ _ => false) 0 fs els).names
      = ((els.filter (fun e => isMediaFileElem e)).enumFrom 1).map
          (fun p => specCanonicalName cid ch uid ts p.1 p.2)
    ∧ newFilenameFix "42" 1 "7" "99" 1690000000000 ".png"
      = "42-1_7-99_1690000000000.png" :=
  ⟨processIdxElems_names_nofail cid ch uid ts els 0 fs, by decide⟩

/-- **C8**: the creation-time conversion maps `2023-01-01T00:00:00Z` to
exactly 1672531200000 epoch milliseconds, and the end-to-end run on a
document with one record (id 5, channel c1, user u1, that time) and one
image attachment `photo.jpg` rewrites document and directory to
`5-1_c1-u1_1672531200000.jpg`. -/
theorem c8_iso_conversion_end_to_end :
    convert_iso_to_ms_timestamp "2023-01-01T00:00:00Z" = some 1672531200000
    ∧ (fixIndexMain true true
        (some [{ id := some "5", channelId := some "c1", userId := some "u1",
                 time := some "2023-01-01T00:00:00Z",
                 elements := [{ type := some "image", file := some "photo.jpg" }] }])
        (fun _ _ => false) ["photo.jpg"]).output
      = some [{ id := some "5", channelId := some "c1", userId := some "u1",
                time := some "2023-01-01T00:00:00Z",
                elements := [{ type := some "image",
                               file := some "5-1_c1-u1_1672531200000.jpg" }] }]
    ∧ (fixIndexMain true true
        (some [{ id := some "5", channelId := some "c1", userId := some "u1",
                 time := some "2023-01-01T00:00:00Z",
                 elements := [{ type := some "image", file := some "photo.jpg" }] }])
        (fun _ _ => false) ["photo.jpg"]).fs
      = ["5-1_c1-u1_1672531200000.jpg"] :=
  ⟨by decide, by decide, by decide⟩

/-- **C9**: in extension-fix mode the comparison between an attachment's
current extension and the detected one is case-insensitive: an element
whose current extension equals the detected extension up to letter case
is left untouched — no rename, no document update — and processing
proceeds with the remaining elements on the unchanged directory. -/
theorem c9_extension_compare_case_insensitive
    (fail : String → String → Bool) (fs : List MFile) (e : Element)
    (rest : List Element) (orig : String) (f : MFile) (kind : String)
    (hfile : e.file = some orig) (hfind : findFile fs orig = some f)
    (hkind : f.kind = some kind)
    (hcase : lowerStr (splitext orig).2 = lowerStr ("." ++ kind)) :
    processExtElems fail fs (e :: rest)
      = ⟨e :: (processExtElems fail fs rest).els,
         (processExtElems fail fs rest).fs,
         (processExtElems fail fs rest).corrected,
         (processExtElems fail fs rest).skipped⟩ := by
  simp [processExtElems, hfile, hfind, hkind, hcase]

/-- Witness for C9 at `.JPG` versus detected kind `jpg`. -/
theorem c9_extension_compare_case_insensitive_witness :
    processExtElems (fun _ _ => false) [⟨"a.JPG", some "jpg"⟩]
        [{ type := some "image", file := some "a.JPG" }]
      = ⟨[{ type := some "image", file := some "a.JPG" }],
         [⟨"a.JPG", some "jpg"⟩], 0, 0⟩ :=
  c9_extension_compare_case_insensitive (fun _ _ => false)
    [⟨"a.JPG", some "jpg"⟩] { type := some "image", file := some "a.JPG" }
    [] "a.JPG" ⟨"a.JPG", some "jpg"⟩ "jpg" rfl (by decide) rfl (by decide)

/-- **C10**: the schema-conversion transform skips a record whose
`cave_id` or `contributor_number` is falsy (absent, `None`, empty string
or 0): it contributes nothing to the output document; in particular a
record with id 0 behaves exactly like a record with no id at all. -/
theorem c10_falsy_ids_skipped (resolve : PyVal → String) (now : String)
    (fail : String → String → Bool) (map : List (PyVal × String))
    (fs : List String) (item : OldItem) (rest : List OldItem)
    (h : item.cave_id.truthy = false ∨ item.contributor_number.truthy = false) :
    convertItems resolve now fail map fs (item :: rest)
      = convertItems resolve now fail map fs rest
    ∧ convertItems resolve now fail map fs ({ item with cave_id := .pint 0 } :: rest)
      = convertItems resolve now fail map fs ({ item with cave_id := .pnone } :: rest) := by
  constructor
  · rcases h with h | h <;> simp [convertItems, h]
  · simp [convertItems, PyVal.truthy]

/-- Witness for C10 at a record with id 0. -/
theorem c10_falsy_ids_skipped_witness :
    convertItems (fun _ => "c") "T" (fun _ _ => false) [] []
        [{ cave_id := .pint 0, contributor_number := .pstr "u" }]
      = convertItems (fun _ => "c") "T" (fun _ _ => false) [] [] []
    ∧ convertItems (fun _ => "c") "T" (fun _ _ => false) [] []
        [{ cave_id := .pint 0, contributor_number := .pstr "u" }]
      = convertItems (fun _ => "c") "T" (fun _ _ => false) [] []
        [{ cave_id := .pnone, contributor_number := .pstr "u" }] :=
  c10_falsy_ids_skipped (fun _ => "c") "T" (fun _ _ => false) [] []
    { cave_id := .pint 0, contributor_number := .pstr "u" } [] (.inl (by decide))

/-- **C7**: the attachment index counter resets at each record and
increments only on file-bearing attachments: (i) two distinct records
with one file-bearing attachment each both assign it index 1, in the
full reindexer; (ii) an element that is not a file-bearing media element
consumes no index slot and is passed over; (iii) a record with zero
file-bearing attachments is left untouched and produces no renames;
(iv) the schema converter's per-record counter likewise restarts at 1. -/
theorem c7_per_record_index_counter (cid ch uid : String) (ts : Int)
    (fail : String → String → Bool) (idx : Nat) (fs : List String)
    (e : Element) (rest : List Element) (c : Cave)
    (hnm : isMediaFileElem e = false)
    (hzero : c.elements.all (fun e => !isMediaFileElem e) = true) :
    (runIdxCaves (fun _ _ => false) ["a.jpg", "b.jpg"]
        [{ id := some "1", channelId := some "c", userId := some "u",
           time := some "2023-01-01T00:00:00Z",
           elements := [{ type := some "image", file := some "a.jpg" }] },
         { id := some "2", channelId := some "c", userId := some "u",
           time := some "2023-01-01T00:00:00Z",
           elements := [{ type := some "image", file := some "b.jpg" }] }]).data
      = [{ id := some "1", channelId := some "c", userId := some "u",
           time := some "2023-01-01T00:00:00Z",
           elements := [{ type := some "image",
                          file := some "1-1_c-u_1672531200000.jpg" }] },
         { id := some "2", channelId := some "c", userId := some "u",
           time := some "2023-01-01T00:00:00Z",
           elements := [{ type := some "image",
                          file := some "2-1_c-u_1672531200000.jpg" }] }]
    ∧ processIdxElems cid ch uid ts fail idx fs (e :: rest)
      = ⟨e :: (processIdxElems cid ch uid ts fail idx fs rest).els,
         (processIdxElems cid ch uid ts fail idx fs rest).fs,
         (processIdxElems cid ch uid ts fail idx fs rest).renamed,
         (processIdxElems cid ch uid ts fail idx fs rest).skipped,
         (processIdxElems cid ch uid ts fail idx fs rest).updated,
         (processIdxElems cid ch uid ts fail idx fs rest).ok,
         (processIdxElems cid ch uid ts fail idx fs rest).names⟩
    ∧ processIdxCave fail fs c = ⟨c, fs, 0, 0, 0, []⟩
    ∧ (convertItems (fun _ => "c") "T" (fun _ _ => false) [(.pstr "u", "c")]
        ["a.jpg", "b.jpg"]
        [{ cave_id := .pint 1, contributor_number := .pstr "u",
           elements := [{ type := some "image", file := some "a.jpg" }] },
         { cave_id := .pint 2, contributor_number := .pstr "u",
           elements := [{ type := some "image", file := some "b.jpg" }] }]).output.map
          (fun it => it.elements)
      = [[{ type := some "image", file := some "1_1_c_u.jpg" }],
         [{ type := some "image", file := some "2_1_c_u.jpg" }]] := by
  refine ⟨by decide, by simp [processIdxElems, hnm], ?_, by decide⟩
  rcases hid : c.id with _ | cid
  · simp [processIdxCave, hid]
  rcases htm : c.time with _ | t
  · simp [processIdxCave, hid, htm]
  rcases hts : convert_iso_to_ms_timestamp t with _ | ts'
  · simp [processIdxCave, hid, htm, hts]
  have h := processIdxElems_no_media cid (c.channelId.getD "unknown")
    (c.userId.getD "unknown") ts' fail c.elements 0 fs hzero
  simp [processIdxCave, hid, htm, hts, h]
  rw [← hid, ← htm]

/-- Witness for C7: a non-media element consumes no slot, and a record
with no file-bearing attachments produces no renames. -/
theorem c7_per_record_index_counter_witness :
    processIdxElems "x" "c" "u" 0 (fun _ _ => false) 0 []
        [{ type := some "text", file := none }]
      = ⟨[{ type := some "text", file := none }], [], 0, 0, false, true, []⟩
    ∧ processIdxCave (fun _ _ => false) []
        { id := some "9", time := some "2023-01-01T00:00:00Z",
          elements := [{ type := some "text", file := none }] }
      = ⟨{ id := some "9", time := some "2023-01-01T00:00:00Z",
           elements := [{ type := some "text", file := none }] },
         [], 0, 0, 0, []⟩ :=
  ⟨(c7_per_record_index_counter "x" "c" "u" 0 (fun _ _ => false) 0 []
      { type := some "text", file := none } []
      { id := some "9", time := some "2023-01-01T00:00:00Z",
        elements := [{ type := some "text", file := none }] }
      (by decide) (by decide)).2.1,
   (c7_per_record_index_counter "x" "c" "u" 0 (fun _ _ => false) 0 []
      { type := some "text", file := none } []
      { id := some "9", time := some "2023-01-01T00:00:00Z",
        elements := [{ type := some "text", file := none }] }
      (by decide) (by decide)).2.2.1⟩

/-- **C1 counterexample**: a one-record document already in canonical
state (target filename = current filename, file present).  The claim says
the reindexer performs no rename, marks the attachment unchanged, and a
second pass yields zero further corrections; the full reindexer instead
re-performs the (same-name) rename and counts it: `renamed = 1`, and the
output document is rewritten — though its content is unchanged. -/
theorem c1_counterexample :
    idxCaveSecondPass ["5-1_c1-u1_1672531200000.jpg"]
        { id := some "5", channelId := some "c1", userId := some "u1",
          time := some "2023-01-01T00:00:00Z",
          elements := [{ type := some "image",
                         file := some "5-1_c1-u1_1672531200000.jpg" }] } = true
    ∧ (fixIndexMain true true
        (some [{ id := some "5", channelId := some "c1", userId := some "u1",
                 time := some "2023-01-01T00:00:00Z",
                 elements := [{ type := some "image",
                                file := some "5-1_c1-u1_1672531200000.jpg" }] }])
        (fun _ _ => false) ["5-1_c1-u1_1672531200000.jpg"]).renamed = 1
    ∧ (fixIndexMain true true
        (some [{ id := some "5", channelId := some "c1", userId := some "u1",
                 time := some "2023-01-01T00:00:00Z",
                 elements := [{ type := some "image",
                                file := some "5-1_c1-u1_1672531200000.jpg" }] }])
        (fun _ _ => false) ["5-1_c1-u1_1672531200000.jpg"]).output
      = some [{ id := some "5", channelId := some "c1", userId := some "u1",
                time := some "2023-01-01T00:00:00Z",
                elements := [{ type := some "image",
                               file := some "5-1_c1-u1_1672531200000.jpg" }] }] :=
  ⟨by decide, by decide, by decide⟩

/-- **C1 amended**: extension-fix mode is idempotent as claimed — when
every file-bearing element already matches its detected extension up to
case (or is skipped as missing/undetectable), a run changes neither the
document nor the directory, corrects nothing and does not rewrite the
document.  Full-reindex mode leaves the document content and the
directory of an already-canonical document unchanged as well, but
re-performs a same-name rename for every present media attachment and
reports them all as renamed again instead of marking them unchanged. -/
theorem c1_idempotence_amended (fail : String → String → Bool)
    (fsX : List MFile) (docX : List Cave) (fsI : List String)
    (docI : List Cave)
    (hX : docX.all (fun c => c.elements.all (fun e => extNoFixNeeded fsX e)) = true)
    (hI : docI.all (fun c => idxCaveSecondPass fsI c) = true) :
    ((correct_files_and_update_json true true (some docX) fail fsX).output = none
      ∧ (correct_files_and_update_json true true (some docX) fail fsX).fs = fsX
      ∧ (correct_files_and_update_json true true (some docX) fail fsX).corrected = 0)
    ∧ ((runIdxCaves (fun _ _ => false) fsI docI).data = docI
      ∧ (runIdxCaves (fun _ _ => false) fsI docI).fs = fsI
      ∧ (runIdxCaves (fun _ _ => false) fsI docI).renamed = countMediaDoc docI) := by
  have hx := runExtCaves_no_fix fail docX fsX hX
  refine ⟨⟨?_, ?_, ?_⟩, runIdxCaves_second_pass docI fsI hI⟩
  · simp [correct_files_and_update_json, hx.2.2]
  · simp [correct_files_and_update_json, hx.2.1]
  · simp [correct_files_and_update_json, hx.2.2]

/-- Witness for the amended C1: a correctly-named `.jpg` file makes the
extension fixer write nothing, and the canonical one-record document
makes the reindexer report one (vacuous) rename with unchanged state. -/
theorem c1_idempotence_amended_witness :
    (correct_files_and_update_json true true
        (some [{ elements := [{ type := some "image", file := some "a.jpg" }] }])
        (fun _ _ => false) [⟨"a.jpg", some "jpg"⟩]).output = none
    ∧ (runIdxCaves (fun _ _ => false) ["5-1_c1-u1_1672531200000.jpg"]
        [{ id := some "5", channelId := some "c1", userId := some "u1",
           time := some "2023-01-01T00:00:00Z",
           elements := [{ type := some "image",
                          file := some "5-1_c1-u1_1672531200000.jpg" }] }]).fs
      = ["5-1_c1-u1_1672531200000.jpg"] :=
  ⟨(c1_idempotence_amended (fun _ _ => false) [⟨"a.jpg", some "jpg"⟩]
      [{ elements := [{ type := some "image", file := some "a.jpg" }] }]
      ["5-1_c1-u1_1672531200000.jpg"]
      [{ id := some "5", channelId := some "c1", userId := some "u1",
         time := some "2023-01-01T00:00:00Z",
         elements := [{ type := some "image",
                        file := some "5-1_c1-u1_1672531200000.jpg" }] }]
      (by decide) (by decide)).1.1,
   (c1_idempotence_amended (fun _ _ => false) [⟨"a.jpg", some "jpg"⟩]
      [{ elements := [{ type := some "image", file := some "a.jpg" }] }]
      ["5-1_c1-u1_1672531200000.jpg"]
      [{ id := some "5", channelId := some "c1", userId := some "u1",
         time := some "2023-01-01T00:00:00Z",
         elements := [{ type := some "image",
                        file := some "5-1_c1-u1_1672531200000.jpg" }] }]
      (by decide) (by decide)).2.2.1⟩

/-- **C2 counterexample**: in the schema-conversion transform, a record
whose image file `photo.jpg` is absent from the resources directory is
skipped on disk (the directory stays empty, no rename happened), yet its
in-memory filename field is rewritten to the new canonical name
`1_1_c1_u1.jpg` — not left unchanged as the claim requires of skipped
attachments. -/
theorem c2_counterexample :
    (convertItems (fun _ => "x") "T" (fun _ _ => false) [(.pstr "u1", "c1")] []
        [{ cave_id := .pint 1, contributor_number := .pstr "u1",
           elements := [{ type := some "image", file := some "photo.jpg" }] }]).output
      = [{ elements := [{ type := some "image", file := some "1_1_c1_u1.jpg" }],
           channelId := "c1", userId := .pstr "u1", userName := "Unknown",
           status := "active", time := "T" }]
    ∧ (convertItems (fun _ => "x") "T" (fun _ _ => false) [(.pstr "u1", "c1")] []
        [{ cave_id := .pint 1, contributor_number := .pstr "u1",
           elements := [{ type := some "image", file := some "photo.jpg" }] }]).fs
      = []
    ∧ ("1_1_c1_u1.jpg" : String) ≠ "photo.jpg" :=
  ⟨by decide, by decide, by decide⟩

/-- **C2 amended**: in the extension-fix and full-reindex transforms
every `skipped:*` outcome leaves the in-memory filename field and the
directory exactly as they were (missing source file, rename failure, and
— for the extension fixer — undetectable content type); the
schema-conversion transform, by contrast, rewrites the field even for
skipped attachments. -/
theorem c2_skipped_field_unchanged_amended (cid ch uid : String) (ts : Int)
    (fail : String → String → Bool) (idx : Nat) (fs : List String)
    (fsX : List MFile) (e : Element) (rest : List Element) (old orig : String) :
    (isMediaFileElem e = true → e.file = some old → old ∉ fs →
      processIdxElems cid ch uid ts fail idx fs (e :: rest)
        = ⟨e :: (processIdxElems cid ch uid ts fail (idx + 1) fs rest).els,
           (processIdxElems cid ch uid ts fail (idx + 1) fs rest).fs,
           (processIdxElems cid ch uid ts fail (idx + 1) fs rest).renamed,
           (processIdxElems cid ch uid ts fail (idx + 1) fs rest).skipped + 1,
           (processIdxElems cid ch uid ts fail (idx + 1) fs rest).updated,
           (processIdxElems cid ch uid ts fail (idx + 1) fs rest).ok,
           newFilenameFix cid (idx + 1) ch uid ts (splitext old).2
             :: (processIdxElems cid ch uid ts fail (idx + 1) fs rest).names⟩)
    ∧ (isMediaFileElem e = true → e.file = some old → old ∈ fs →
        fail old (newFilenameFix cid (idx + 1) ch uid ts (splitext old).2) = true →
      processIdxElems cid ch uid ts fail idx fs (e :: rest)
        = ⟨e :: rest, fs, 0, 0, false, false,
           [newFilenameFix cid (idx + 1) ch uid ts (splitext old).2]⟩)
    ∧ (e.file = some orig → findFile fsX orig = none →
      processExtElems fail fsX (e :: rest)
        = ⟨e :: (processExtElems fail fsX rest).els,
           (processExtElems fail fsX rest).fs,
           (processExtElems fail fsX rest).corrected,
           (processExtElems fail fsX rest).skipped + 1⟩)
    ∧ (∀ f : MFile, e.file = some orig → findFile fsX orig = some f →
        f.kind = none →
      processExtElems fail fsX (e :: rest)
        = ⟨e :: (processExtElems fail fsX rest).els,
           (processExtElems fail fsX rest).fs,
           (processExtElems fail fsX rest).corrected,
           (processExtElems fail fsX rest).skipped + 1⟩)
    ∧ (∀ (f : MFile) (kind : String), e.file = some orig →
        findFile fsX orig = some f → f.kind = some kind →
        lowerStr (splitext orig).2 ≠ lowerStr ("." ++ kind) →
        fail orig ((splitext orig).1 ++ ("." ++ kind)) = true →
      processExtElems fail fsX (e :: rest)
        = ⟨e :: (processExtElems fail fsX rest).els,
           (processExtElems fail fsX rest).fs,
           (processExtElems fail fsX rest).corrected,
           (processExtElems fail fsX rest).skipped + 1⟩) := by
  refine ⟨?_, ?_, ?_, ?_, ?_⟩
  · intro h hf hm; simp [processIdxElems, h, hf, hm]
  · intro h hf hm hfail; simp [processIdxElems, h, hf, hm, hfail]
  · intro hf hfind; simp [processExtElems, hf, hfind]
  · intro f hf hfind hk; simp [processExtElems, hf, hfind, hk]
  · intro f kind hf hfind hk hne hfail
    simp [processExtElems, hf, hfind, hk, hne, hfail]

/-- Witness for the amended C2: a missing source file and a failing
rename, each on a one-element record, leave the element untouched. -/
theorem c2_skipped_field_unchanged_amended_witness :
    processIdxElems "1" "c" "u" 0 (fun _ _ => false) 0 []
        [{ type := some "image", file := some "gone.jpg" }]
      = ⟨[{ type := some "image", file := some "gone.jpg" }], [], 0, 1,
         false, true, ["1-1_c-u_0.jpg"]⟩
    ∧ processIdxElems "1" "c" "u" 0 (fun _ _ => true) 0 ["a.jpg"]
        [{ type := some "image", file := some "a.jpg" }]
      = ⟨[{ type := some "image", file := some "a.jpg" }], ["a.jpg"], 0, 0,
         false, false, ["1-1_c-u_0.jpg"]⟩ :=
  ⟨(c2_skipped_field_unchanged_amended "1" "c" "u" 0 (fun _ _ => false) 0 []
      [] { type := some "image", file := some "gone.jpg" } [] "gone.jpg" "").1
      (by decide) rfl (by decide),
   (c2_skipped_field_unchanged_amended "1" "c" "u" 0 (fun _ _ => true) 0 ["a.jpg"]
      [] { type := some "image", file := some "a.jpg" } [] "a.jpg" "").2.1
      (by decide) rfl (by decide) (by decide)⟩

/-- **C3 counterexample**: a run of the full reindexer in which the only
attachment is skipped (its source file is missing) corrects nothing, yet
the output document is still written — the claim's "written only if at
least one attachment was corrected" fails for this transform. -/
theorem c3_counterexample :
    (fixIndexMain true true
        (some [{ id := some "5", channelId := some "c1", userId := some "u1",
                 time := some "2023-01-01T00:00:00Z",
                 elements := [{ type := some "image", file := some "photo.jpg" }] }])
        (fun _ _ => false) []).renamed = 0
    ∧ (fixIndexMain true true
        (some [{ id := some "5", channelId := some "c1", userId := some "u1",
                 time := some "2023-01-01T00:00:00Z",
                 elements := [{ type := some "image", file := some "photo.jpg" }] }])
        (fun _ _ => false) []).skipped = 1
    ∧ (fixIndexMain true true
        (some [{ id := some "5", channelId := some "c1", userId := some "u1",
                 time := some "2023-01-01T00:00:00Z",
                 elements := [{ type := some "image", file := some "photo.jpg" }] }])
        (fun _ _ => false) []).output.isSome = true :=
  ⟨by decide, by decide, by decide⟩

/-- **C3 amended**: the extension fixer writes the document back iff at
least one attachment was corrected, on every input; the full reindexer
(once its top-level guards pass) writes the output document iff the
record list is nonempty, regardless of how many attachments were
corrected. -/
theorem c3_write_condition_amended (jsonExists dirExists : Bool)
    (doc : Option (List Cave)) (fail : String → String → Bool)
    (fsX : List MFile) (fs : List String) (data : List Cave) :
    ((correct_files_and_update_json jsonExists dirExists doc fail fsX).output.isSome
      ↔ 0 < (correct_files_and_update_json jsonExists dirExists doc fail fsX).corrected)
    ∧ ((fixIndexMain true true (some data) fail fs).output.isSome ↔ data ≠ []) := by
  constructor
  · cases jsonExists <;> cases dirExists <;>
      [skip; skip; skip; rcases doc with _ | d] <;>
      simp [correct_files_and_update_json]
  · cases data <;>
      simp [fixIndexMain, rename_files_and_update_json, runIdxCaves]

/-- **C5 counterexample**: a record with two present image attachments,
where renaming the first raises.  The claim says processing resumes with
the next attachment, so `b.jpg` would be renamed; instead the per-record
exception handler abandons the whole record: nothing is renamed, the
directory keeps `a.jpg` and `b.jpg`, and the second attachment — whose
own rename would have succeeded — is never processed. -/
theorem c5_counterexample :
    (processIdxCave (fun old _ => old == "a.jpg") ["a.jpg", "b.jpg"]
        { id := some "1", channelId := some "c", userId := some "u",
          time := some "2023-01-01T00:00:00Z",
          elements := [{ type := some "image", file := some "a.jpg" },
                       { type := some "image", file := some "b.jpg" }] }).cave
      = { id := some "1", channelId := some "c", userId := some "u",
          time := some "2023-01-01T00:00:00Z",
          elements := [{ type := some "image", file := some "a.jpg" },
                       { type := some "image", file := some "b.jpg" }] }
    ∧ (processIdxCave (fun old _ => old == "a.jpg") ["a.jpg", "b.jpg"]
        { id := some "1", channelId := some "c", userId := some "u",
          time := some "2023-01-01T00:00:00Z",
          elements := [{ type := some "image", file := some "a.jpg" },
                       { type := some "image", file := some "b.jpg" }] }).renamed = 0
    ∧ (processIdxCave (fun old _ => old == "a.jpg") ["a.jpg", "b.jpg"]
        { id := some "1", channelId := some "c", userId := some "u",
          time := some "2023-01-01T00:00:00Z",
          elements := [{ type := some "image", file := some "a.jpg" },
                       { type := some "image", file := some "b.jpg" }] }).fs
      = ["a.jpg", "b.jpg"]
    ∧ ((fun old (_ : String) => old == "a.jpg") "b.jpg"
        "1-2_c-u_1672531200000.jpg" = false)
    ∧ "b.jpg" ∈ ["a.jpg", "b.jpg"] :=
  ⟨by decide, by decide, by decide, by decide, by decide⟩

/-- **C5 amended**: later records are always processed whatever happened
to earlier ones; within a record, a missing source file (full reindexer)
and all three per-attachment errors of the extension fixer are contained
— processing continues with the next element; but a rename failure in
the full reindexer abandons the remaining attachments of that record
(they are processed again only on the next run). -/
theorem c5_error_containment_amended (cid ch uid : String) (ts : Int)
    (fail : String → String → Bool) (idx : Nat) (fs : List String)
    (fsX : List MFile) (c : Cave) (cs : List Cave) (e : Element)
    (rest : List Element) (old orig : String) :
    ((runIdxCaves fail fs (c :: cs)).data
      = (processIdxCave fail fs c).cave
          :: (runIdxCaves fail (processIdxCave fail fs c).fs cs).data)
    ∧ (isMediaFileElem e = true → e.file = some old → old ∉ fs →
        (processIdxElems cid ch uid ts fail idx fs (e :: rest)).els
          = e :: (processIdxElems cid ch uid ts fail (idx + 1) fs rest).els)
    ∧ (isMediaFileElem e = true → e.file = some old → old ∈ fs →
        fail old (newFilenameFix cid (idx + 1) ch uid ts (splitext old).2) = true →
        (processIdxElems cid ch uid ts fail idx fs (e :: rest)).els = e :: rest
        ∧ (processIdxElems cid ch uid ts fail idx fs (e :: rest)).ok = false)
    ∧ (e.file = some orig → findFile fsX orig = none →
        (processExtElems fail fsX (e :: rest)).els
          = e :: (processExtElems fail fsX rest).els)
    ∧ (∀ f : MFile, e.file = some orig → findFile fsX orig = some f →
        f.kind = none →
        (processExtElems fail fsX (e :: rest)).els
          = e :: (processExtElems fail fsX rest).els)
    ∧ (∀ (f : MFile) (kind : String), e.file = some orig →
        findFile fsX orig = some f → f.kind = some kind →
        lowerStr (splitext orig).2 ≠ lowerStr ("." ++ kind) →
        fail orig ((splitext orig).1 ++ ("." ++ kind)) = true →
        (processExtElems fail fsX (e :: rest)).els
          = e :: (processExtElems fail fsX rest).els) := by
  refine ⟨by simp [runIdxCaves], ?_, ?_, ?_, ?_, ?_⟩
  · intro h hf hm; simp [processIdxElems, h, hf, hm]
  · intro h hf hm hfail; simp [processIdxElems, h, hf, hm, hfail]
  · intro hf hfind; simp [processExtElems, hf, hfind]
  · intro f hf hfind hk; simp [processExtElems, hf, hfind, hk]
  · intro f kind hf hfind hk hne hfail
    simp [processExtElems, hf, hfind, hk, hne, hfail]

/-- Witness for the amended C5: a skipped element continues to the next
element; a failing rename aborts the record's element loop. -/
theorem c5_error_containment_amended_witness :
    (processIdxElems "1" "c" "u" 0 (fun _ _ => false) 0 []
        [{ type := some "image", file := some "gone.jpg" },
         { type := some "text", file := none }]).els
      = { type := some "image", file := some "gone.jpg" }
          :: (processIdxElems "1" "c" "u" 0 (fun _ _ => false) 1 []
                [{ type := some "text", file := none }]).els
    ∧ (processIdxElems "1" "c" "u" 0 (fun _ _ => true) 0 ["a.jpg"]
        [{ type := some "image", file := some "a.jpg" },
         { type := some "image", file := some "b.jpg" }]).ok = false :=
  ⟨(c5_error_containment_amended "1" "c" "u" 0 (fun _ _ => false) 0 [] []
      { id := none } [] { type := some "image", file := some "gone.jpg" }
      [{ type := some "text", file := none }] "gone.jpg" "").2.1
      (by decide) rfl (by decide),
   ((c5_error_containment_amended "1" "c" "u" 0 (fun _ _ => true) 0 ["a.jpg"] []
      { id := none } [] { type := some "image", file := some "a.jpg" }
      [{ type := some "image", file := some "b.jpg" }] "a.jpg" "").2.2.1
      (by decide) rfl (by decide) (by decide)).2⟩

/-- **C6 counterexample**: a document whose first record lacks the
required `id` field.  The claim says the run aborts immediately with no
mutation; instead the malformed record is merely skipped and the run
carries on: the second record's file is renamed (the directory changes)
and the output document is written. -/
theorem c6_counterexample :
    ({ time := some "2023-01-01T00:00:00Z" } : Cave).id = none
    ∧ (fixIndexMain true true
        (some [{ time := some "2023-01-01T00:00:00Z" },
               { id := some "1", channelId := some "c", userId := some "u",
                 time := some "2023-01-01T00:00:00Z",
                 elements := [{ type := some "image", file := some "photo.jpg" }] }])
        (fun _ _ => false) ["photo.jpg"]).fs = ["1-1_c-u_1672531200000.jpg"]
    ∧ (fixIndexMain true true
        (some [{ time := some "2023-01-01T00:00:00Z" },
               { id := some "1", channelId := some "c", userId := some "u",
                 time := some "2023-01-01T00:00:00Z",
                 elements := [{ type := some "image", file := some "photo.jpg" }] }])
        (fun _ _ => false) ["photo.jpg"]).renamed = 1
    ∧ (fixIndexMain true true
        (some [{ time := some "2023-01-01T00:00:00Z" },
               { id := some "1", channelId := some "c", userId := some "u",
                 time := some "2023-01-01T00:00:00Z",
                 elements := [{ type := some "image", file := some "photo.jpg" }] }])
        (fun _ _ => false) ["photo.jpg"]).output.isSome = true :=
  ⟨rfl, by decide, by decide, by decide⟩

/-- **C6 amended**: invalid JSON and missing top-level paths abort both
runs before any mutation, as claimed; but a record missing a required
field (`id` or `time`) is only skipped with a diagnostic — the record
itself is untouched while the run continues with the remaining
records. -/
theorem c6_abort_policy_amended (fail : String → String → Bool)
    (docI : Option (List Cave)) (docX : Option (List Cave))
    (fs : List String) (fsX : List MFile) (c : Cave) (cs : List Cave) :
    correct_files_and_update_json true true none fail fsX = ⟨none, fsX, 0, 0⟩
    ∧ correct_files_and_update_json false true docX fail fsX = ⟨none, fsX, 0, 0⟩
    ∧ correct_files_and_update_json true false docX fail fsX = ⟨none, fsX, 0, 0⟩
    ∧ fixIndexMain false true docI fail fs = ⟨none, fs, 0, 0, 0⟩
    ∧ fixIndexMain true false docI fail fs = ⟨none, fs, 0, 0, 0⟩
    ∧ fixIndexMain true true none fail fs = ⟨none, fs, 0, 0, 0⟩
    ∧ (c.id = none ∨ c.time = none →
        processIdxCave fail fs c = ⟨c, fs, 0, 0, 0, []⟩
        ∧ (runIdxCaves fail fs (c :: cs)).data
            = c :: (runIdxCaves fail fs cs).data) := by
  refine ⟨rfl, rfl, rfl, rfl, rfl, rfl, ?_⟩
  intro h
  have hpc : processIdxCave fail fs c = ⟨c, fs, 0, 0, 0, []⟩ := by
    rcases h with h | h
    · simp [processIdxCave, h]
    · rcases hid : c.id with _ | cid <;> simp [processIdxCave, h, hid]
  exact ⟨hpc, by simp [runIdxCaves, hpc]⟩

/-- Witness for the amended C6 at a record lacking `id`. -/
theorem c6_abort_policy_amended_witness :
    processIdxCave (fun _ _ => false) []
        ({ time := some "2023-01-01T00:00:00Z" } : Cave)
      = ⟨{ time := some "2023-01-01T00:00:00Z" }, [], 0, 0, 0, []⟩
    ∧ (runIdxCaves (fun _ _ => false) []
        [({ time := some "2023-01-01T00:00:00Z" } : Cave)]).data
      = [{ time := some "2023-01-01T00:00:00Z" }] :=
  ((c6_abort_policy_amended (fun _ _ => false) none none [] []
      { time := some "2023-01-01T00:00:00Z" } []).2.2.2.2.2.2
    (.inl rfl)).imp id (fun h => by simpa using h)

end BestCave
